import Mathlib

/-!
Verification of the gt4py CLOUDSC dwarf (fused and split cloud-microphysics
engines) against its natural-language specification.

The Python source is shallowly embedded: pure elementwise gtscript functions
become functions over `ℝ` (floating point modelled by exact real arithmetic),
the constant-table merge becomes explicit dictionary updates, the array
initialization helpers become slice-write combinators on index functions, and
the fused/split orchestration becomes explicit state passing.
-/

open Real

/-- The physical constants consumed via `from __externals__ import ...` by the
stencil functions in `physics/_stencils/fcttre.py`, `fccld.py` and
`cuadjtq.py`.  At run time these come from the merged externals table; here
they are an abstract record of real values. -/
structure Consts where
  RTT : ℝ
  RTICE : ℝ
  RTWAT : ℝ
  RTWAT_RTICE_R : ℝ
  R2ES : ℝ
  R3LES : ℝ
  R3IES : ℝ
  R4LES : ℝ
  R4IES : ℝ
  R5ALVCP : ℝ
  R5ALSCP : ℝ
  RALVDCP : ℝ
  RALSDCP : ℝ
  RETV : ℝ
  RKOOP1 : ℝ
  RKOOP2 : ℝ

/-- `f_foedelta` (fcttre.py line 26): `1 if t > RTT else 0`. -/
noncomputable def f_foedelta (C : Consts) (t : ℝ) : ℝ :=
  if t > C.RTT then 1 else 0

/-- `f_foealfa` (fcttre.py line 35):
`min(1.0, ((max(RTICE, min(RTWAT, t)) - RTICE) * RTWAT_RTICE_R) ** 2)`. -/
noncomputable def f_foealfa (C : Consts) (t : ℝ) : ℝ :=
  min 1 (((max C.RTICE (min C.RTWAT t) - C.RTICE) * C.RTWAT_RTICE_R) ^ 2)

/-- `f_foeewm` (fcttre.py line 44): mixed-phase saturation vapor pressure. -/
noncomputable def f_foeewm (C : Consts) (t : ℝ) : ℝ :=
  C.R2ES * (f_foealfa C t * Real.exp (C.R3LES * (t - C.RTT) / (t - C.R4LES))
    + (1 - f_foealfa C t) * Real.exp (C.R3IES * (t - C.RTT) / (t - C.R4IES)))

/-- `f_foedem` (fcttre.py line 56): mixed-phase derivative term. -/
noncomputable def f_foedem (C : Consts) (t : ℝ) : ℝ :=
  f_foealfa C t * C.R5ALVCP * (1 / (t - C.R4LES) ^ 2)
    + (1 - f_foealfa C t) * C.R5ALSCP * (1 / (t - C.R4IES) ^ 2)

/-- `f_foeldcpm` (fcttre.py line 67): mixed-phase latent-heat over cp weight. -/
noncomputable def f_foeldcpm (C : Consts) (t : ℝ) : ℝ :=
  f_foealfa C t * C.RALVDCP + (1 - f_foealfa C t) * C.RALSDCP

/-- `f_foeeliq` (fcttre.py line 76): liquid-phase saturation vapor pressure. -/
noncomputable def f_foeeliq (C : Consts) (t : ℝ) : ℝ :=
  C.R2ES * Real.exp (C.R3LES * (t - C.RTT) / (t - C.R4LES))

/-- `f_foeeice` (fcttre.py line 85): ice-phase saturation vapor pressure. -/
noncomputable def f_foeeice (C : Consts) (t : ℝ) : ℝ :=
  C.R2ES * Real.exp (C.R3IES * (t - C.RTT) / (t - C.R4IES))

/-- `f_fokoop` (fccld.py line 27):
`min(RKOOP1 - RKOOP2 * t, f_foeeliq(t) / f_foeeice(t))`. -/
noncomputable def f_fokoop (C : Consts) (t : ℝ) : ℝ :=
  min (C.RKOOP1 - C.RKOOP2 * t) (f_foeeliq C t / f_foeeice C t)

/-- `f_cuadjtq_5` (cuadjtq.py line 25): one Newton-style saturation-adjustment
update on `(qsmix, t)`, given the inverse pressure `qp`.  The sequential
re-bindings mirror the Python assignments (`qsat *= cor`, `t += ...`,
`qsmix -= cond`) in order; `f_foeldcpm` and `f_foedem` read the pre-update
temperature. -/
noncomputable def f_cuadjtq_5 (C : Consts) (qp : ℝ) (qsmix : ℝ) (t : ℝ) : ℝ × ℝ :=
  let qsat := min (f_foeewm C t * qp) 0.5
  let cor := 1 / (1 - C.RETV * qsat)
  let qsat := qsat * cor
  let cond := (qsmix - qsat) / (1 + qsat * cor * f_foedem C t)
  let t2 := t + f_foeldcpm C t * cond
  let qsmix2 := qsmix - cond
  (qsmix2, t2)

/-- `f_cuadjtq` (cuadjtq.py line 39): `qp = 1/ap` followed by two applications
of `f_cuadjtq_5`. -/
noncomputable def f_cuadjtq (C : Consts) (ap : ℝ) (qsmix : ℝ) (t : ℝ) : ℝ × ℝ :=
  let qp := 1 / ap
  let r1 := f_cuadjtq_5 C qp qsmix t
  let r2 := f_cuadjtq_5 C qp r1.1 r1.2
  r2

namespace SpecModel

/-- The update sequence exactly as the specification words it (§4.3):
`qsat = min(foeewm(t)*qp, 0.5)`; `cor = 1/(1 - vapor_ratio_const * qsat)`;
`qsat *= cor`; `cond = (qsmix - qsat) / (1 + qsat*cor*foedem(t))`;
`t += foeldcpm(t)*cond`; `qsmix -= cond`. -/
noncomputable def cuadjtqStep (C : Consts) (qp : ℝ) (s : ℝ × ℝ) : ℝ × ℝ :=
  let qsat := min (f_foeewm C s.2 * qp) 0.5
  let cor := 1 / (1 - C.RETV * qsat)
  let qsat := qsat * cor
  let cond := (s.1 - qsat) / (1 + qsat * cor * f_foedem C s.2)
  (s.1 - cond, s.2 + f_foeldcpm C s.2 * cond)

end SpecModel

/-- Concrete constant table used to instantiate the universally quantified
theorems on explicit inputs.  `R3LES = R3IES = 0` makes both Clausius-Clapeyron
exponentials evaluate to `exp 0 = 1`, so every function value is rational. -/
noncomputable def demoConsts : Consts :=
  { RTT := 0, RTICE := 0, RTWAT := 1, RTWAT_RTICE_R := 1,
    R2ES := 1, R3LES := 0, R3IES := 0, R4LES := 0, R4IES := 0,
    R5ALVCP := 0, R5ALSCP := 0, RALVDCP := 0, RALSDCP := 0,
    RETV := 1, RKOOP1 := 0, RKOOP2 := 0 }

/-- At the demo constants and `t = 2`, the liquid fraction is `1`. -/
theorem demo_foealfa_two : f_foealfa demoConsts 2 = 1 := by
  norm_num [f_foealfa, demoConsts, max_def, min_def]

/-- At the demo constants and `t = 2`, the mixed saturation pressure is `1`. -/
theorem demo_foeewm_two : f_foeewm demoConsts 2 = 1 := by
  simp [f_foeewm, demo_foealfa_two]
  norm_num [demoConsts]

/-- `f_foedem`, `f_foeldcpm` and one `f_cuadjtq_5` step evaluated at the demo
constants (`t = 2`, inverse pressure `1/4`). -/
theorem demo_foedem_two : f_foedem demoConsts 2 = 0 := by
  norm_num [f_foedem, demoConsts]

theorem demo_foeldcpm_two : f_foeldcpm demoConsts 2 = 0 := by
  norm_num [f_foeldcpm, demoConsts]

theorem demo_step_one : f_cuadjtq_5 demoConsts (1 / 4) (1 / 4) 2 = (1 / 3, 2) := by
  simp only [f_cuadjtq_5, demo_foeewm_two, demo_foedem_two, demo_foeldcpm_two]
  norm_num [demoConsts, min_def]

theorem demo_step_two : f_cuadjtq_5 demoConsts (1 / 4) (1 / 3) 2 = (1 / 3, 2) := by
  simp only [f_cuadjtq_5, demo_foeewm_two, demo_foedem_two, demo_foeldcpm_two]
  norm_num [demoConsts, min_def]

/-- C3: `f_cuadjtq` computes `qp = 1/ap` and then applies exactly two
iterations of the update sequence of §4.3 (`SpecModel.cuadjtqStep`), never
more and never fewer, for every input. -/
theorem cuadjtq_is_two_spec_iterations (C : Consts) (ap qsmix t : ℝ) :
    f_cuadjtq C ap qsmix t = (SpecModel.cuadjtqStep C (1 / ap))^[2] (qsmix, t) := by
  rfl

/-- C3 witness: the two-iteration characterization instantiated at the demo
constants, where both sides evaluate to `(1/3, 2)`. -/
theorem cuadjtq_is_two_spec_iterations_witness :
    f_cuadjtq demoConsts 4 (1 / 4) 2
      = (SpecModel.cuadjtqStep demoConsts (1 / 4))^[2] (1 / 4, 2) := by
  have h := cuadjtq_is_two_spec_iterations demoConsts 4 (1 / 4) 2
  norm_num at h
  norm_num [h]

/-- C6: for every temperature, `f_foealfa` lies in `[0, 1]`; and it is
monotonically non-decreasing between `RTICE` and `RTWAT`. -/
theorem foealfa_bounds_and_monotone (C : Consts) (t1 t2 : ℝ)
    (h12 : t1 ≤ t2) (hlo : C.RTICE ≤ t1) (hhi : t2 ≤ C.RTWAT) :
    (∀ t : ℝ, 0 ≤ f_foealfa C t ∧ f_foealfa C t ≤ 1) ∧
      f_foealfa C t1 ≤ f_foealfa C t2 := by
  constructor
  · intro t
    exact ⟨le_min zero_le_one (sq_nonneg _), min_le_left _ _⟩
  · have e1 : max C.RTICE (min C.RTWAT t1) = t1 := by
      rw [min_eq_right (le_trans h12 hhi), max_eq_right hlo]
    have e2 : max C.RTICE (min C.RTWAT t2) = t2 := by
      rw [min_eq_right hhi, max_eq_right (le_trans hlo h12)]
    unfold f_foealfa
    rw [e1, e2]
    refine min_le_min le_rfl ?_
    rw [mul_pow, mul_pow]
    refine mul_le_mul_of_nonneg_right ?_ (sq_nonneg _)
    exact pow_le_pow_left₀ (sub_nonneg.mpr hlo) (sub_le_sub_right h12 _) 2

/-- C6 witness: bounds and monotonicity at the demo constants on the interval
`[RTICE, RTWAT] = [0, 1]` with `t1 = 1/4 ≤ t2 = 1/2`. -/
theorem foealfa_bounds_and_monotone_witness :
    (0 ≤ f_foealfa demoConsts (1 / 4) ∧ f_foealfa demoConsts (1 / 4) ≤ 1) ∧
      f_foealfa demoConsts (1 / 4) ≤ f_foealfa demoConsts (1 / 2) := by
  have h := foealfa_bounds_and_monotone demoConsts (1 / 4) (1 / 2)
    (by norm_num) (by norm_num [demoConsts]) (by norm_num [demoConsts])
  exact ⟨h.1 (1 / 4), h.2⟩

/-- C7: away from the two pole temperatures, `f_foeewm` is exactly the
`f_foealfa`-weighted combination of `f_foeeliq` and `f_foeeice`. -/
theorem foeewm_weighted_combination (C : Consts) (t : ℝ)
    (_h1 : t ≠ C.R4LES) (_h2 : t ≠ C.R4IES) :
    f_foeewm C t
      = f_foealfa C t * f_foeeliq C t + (1 - f_foealfa C t) * f_foeeice C t := by
  unfold f_foeewm f_foeeliq f_foeeice
  ring

/-- C7 witness: the weighted-combination identity at the demo constants and
`t = 2` (away from both poles, which sit at `0`). -/
theorem foeewm_weighted_combination_witness :
    f_foeewm demoConsts 2
      = f_foealfa demoConsts 2 * f_foeeliq demoConsts 2
        + (1 - f_foealfa demoConsts 2) * f_foeeice demoConsts 2 := by
  exact foeewm_weighted_combination demoConsts 2 (by norm_num [demoConsts])
    (by norm_num [demoConsts])

/-- C4 counterexample: at the demo constants, `ap = 4`, `t = 2`, the input
`qsmix = 1/4` satisfies the claim's saturation premise
`qsmix = foeewm(t) * qp` (with `qp = 1/ap = 1/4`), yet the first iteration's
correction is `-1/12` (not `≈ 0`) and `f_cuadjtq` returns `qsmix = 1/3`, a
33% relative change from the input `1/4`. -/
theorem cuadjtq_saturated_input_not_fixed :
    (1 : ℝ) / 4 = f_foeewm demoConsts 2 * (1 / 4) ∧
      f_cuadjtq demoConsts 4 (1 / 4) 2 = (1 / 3, 2) ∧
      (f_cuadjtq demoConsts 4 (1 / 4) 2).1 ≠ 1 / 4 := by
  have hsat : (1 : ℝ) / 4 = f_foeewm demoConsts 2 * (1 / 4) := by
    rw [demo_foeewm_two]; norm_num
  have hrun : f_cuadjtq demoConsts 4 (1 / 4) 2 = (1 / 3, 2) := by
    simp only [f_cuadjtq]
    norm_num
    rw [demo_step_one]
    simpa using demo_step_two
  refine ⟨hsat, hrun, ?_⟩
  rw [hrun]
  norm_num

/-- One adjustment step leaves `(qsmix, t)` unchanged when `qsmix` already
equals the corrected saturation value `qsat * cor`. -/
theorem cuadjtq5_fixed_point (C : Consts) (qp qsmix t : ℝ)
    (h : qsmix = min (f_foeewm C t * qp) 0.5
        * (1 / (1 - C.RETV * min (f_foeewm C t * qp) 0.5))) :
    f_cuadjtq_5 C qp qsmix t = (qsmix, t) := by
  simp only [f_cuadjtq_5]
  rw [← h]
  simp [sub_self, zero_div]

/-- C4 amended: the true fixed point of the adjustment is the *corrected*
saturation value `qsmix = qsat * cor` with `qsat = min(foeewm(t)/ap, 0.5)` and
`cor = 1/(1 - RETV*qsat)` — not the claim's `qsmix = foeewm(t)/ap`.  For such
an input both iterations produce `cond = 0` and the output equals the input
exactly. -/
theorem cuadjtq_corrected_saturation_fixed_point (C : Consts) (ap qsmix t : ℝ)
    (h : qsmix = min (f_foeewm C t * (1 / ap)) 0.5
        * (1 / (1 - C.RETV * min (f_foeewm C t * (1 / ap)) 0.5))) :
    f_cuadjtq C ap qsmix t = (qsmix, t) := by
  simp only [f_cuadjtq]
  rw [cuadjtq5_fixed_point C (1 / ap) qsmix t h]
  exact cuadjtq5_fixed_point C (1 / ap) qsmix t h

/-- C4 amended witness: at the demo constants the corrected saturation value
for `ap = 4`, `t = 2` is `qsmix = 1/4 * (4/3) = 1/3`, and `f_cuadjtq` returns
exactly `(1/3, 2)`. -/
theorem cuadjtq_corrected_saturation_fixed_point_witness :
    f_cuadjtq demoConsts 4 (1 / 3) 2 = (1 / 3, 2) := by
  exact cuadjtq_corrected_saturation_fixed_point demoConsts 4 (1 / 3) 2
    (by rw [demo_foeewm_two]; norm_num [demoConsts, min_def])

/-! ## Constant-table construction (cloudsc.py / cloudsc_split.py `__init__`) -/

/-- A value stored in the externals mapping: the literal set mixes Python
ints, bools and floats. -/
inductive ExtVal where
  | vInt (n : ℤ)
  | vBool (b : Bool)
  | vReal (r : ℝ)

/-- A Python dict, modelled as a partial map from names to values. -/
def ExtDict : Type := String → Option ExtVal

/-- The empty dict `externals = {}`. -/
def emptyExt : ExtDict := fun _ => none

/-- `d.update(e)`: on a key collision the later (right) dict wins. -/
def updateExt (d e : ExtDict) : ExtDict := fun k =>
  match e k with
  | some v => some v
  | none => d k

/-- View an association list as a dict. -/
def ofListExt (l : List (String × ExtVal)) : ExtDict := fun k => l.lookup k

/-- The cloud-scheme parameter group (`yoecldp_params`): its dict plus the
named attributes read by the literal-constant formulas. -/
structure YoecldpParams where
  dict : List (String × ExtVal)
  NCLDQI : ℤ
  NCLDQR : ℤ
  NCLDQS : ℤ

/-- The thermodynamic parameter group (`yoethf_params`). -/
structure YoethfParams where
  dict : List (String × ExtVal)
  RALSDCP : ℝ
  RALVDCP : ℝ

/-- The universal-constant parameter group (`yomcst_params`). -/
structure YomcstParams where
  dict : List (String × ExtVal)
  RD : ℝ
  RCPD : ℝ

/-- The tunable-scheme parameter group (`yrecldp_params`). -/
structure YrecldpParams where
  dict : List (String × ExtVal)
  RVICE : ℝ
  RVRAIN : ℝ
  RVSNOW : ℝ

/-- The literal-constant set of `Cloudsc.__init__` (cloudsc.py lines 58-95)
and, identically, `CloudscSplit.__init__` (cloudsc_split.py lines 63-99).
`EPSILON` is `100 * sys.float_info.epsilon` with double-precision
`epsilon = 2^-52`; `RDCP` and `RLDCP` are the derived entries, computed here
(at construction) and nowhere else. -/
noncomputable def literalConstants (p1 : YoecldpParams) (p2 : YoethfParams)
    (p3 : YomcstParams) (p4 : YrecldpParams) (nlev : ℤ) :
    List (String × ExtVal) :=
  [ ("DEPICE", .vInt 1),
    ("EPSEC", .vReal (1 / 10 ^ 14)),
    ("EPSILON", .vReal (100 / 2 ^ 52)),
    ("EVAPRAIN", .vInt 2),
    ("EVAPSNOW", .vInt 1),
    ("FALLQV", .vBool false),
    ("FALLQL", .vBool false),
    ("FALLQI", .vBool false),
    ("FALLQR", .vBool true),
    ("FALLQS", .vBool true),
    ("MELTQV", .vInt (-99)),
    ("MELTQL", .vInt p1.NCLDQI),
    ("MELTQI", .vInt p1.NCLDQR),
    ("MELTQR", .vInt p1.NCLDQS),
    ("MELTQS", .vInt p1.NCLDQR),
    ("NLEV", .vInt nlev),
    ("PHASEQV", .vInt 0),
    ("PHASEQL", .vInt 1),
    ("PHASEQI", .vInt 2),
    ("PHASEQR", .vInt 1),
    ("PHASEQS", .vInt 2),
    ("RDCP", .vReal (p3.RD / p3.RCPD)),
    ("RLDCP", .vReal (1 / (p2.RALSDCP - p2.RALVDCP))),
    ("TW1", .vReal 1329.31),
    ("TW2", .vReal 0.0074615),
    ("TW3", .vReal 85000),
    ("TW4", .vReal 40.637),
    ("TW5", .vReal 275),
    ("VQV", .vReal 0),
    ("VQL", .vReal 0),
    ("VQI", .vReal p4.RVICE),
    ("VQR", .vReal p4.RVRAIN),
    ("VQS", .vReal p4.RVSNOW),
    ("WARMRAIN", .vInt 2) ]

/-- The externals merge of `Cloudsc.__init__`: start from `{}`, update with
the four parameter groups in order, then with the literal-constant set. -/
noncomputable def buildExternals (p1 : YoecldpParams) (p2 : YoethfParams)
    (p3 : YomcstParams) (p4 : YrecldpParams) (nlev : ℤ) : ExtDict :=
  updateExt
    (updateExt
      (updateExt
        (updateExt
          (updateExt emptyExt (ofListExt p1.dict))
          (ofListExt p2.dict))
        (ofListExt p3.dict))
      (ofListExt p4.dict))
    (ofListExt (literalConstants p1 p2 p3 p4 nlev))

/-- The engine state fixed at construction: the merged externals table.  Both
`Cloudsc` and `CloudscSplit` store it once; `array_call` only reads it. -/
structure CloudscEngine where
  nlev : ℤ
  externals : ExtDict

/-- Engine construction (`Cloudsc.__init__` / `CloudscSplit.__init__`):
resolves the externals table exactly once. -/
noncomputable def mkCloudscEngine (p1 : YoecldpParams) (p2 : YoethfParams)
    (p3 : YomcstParams) (p4 : YrecldpParams) (nlev : ℤ) : CloudscEngine :=
  { nlev := nlev, externals := buildExternals p1 p2 p3 p4 nlev }

/-- C5: engine construction merges the four parameter groups first and the
literal set last, so any key present in the literal set resolves to its
literal value no matter what the parameter groups map it to (literals always
win); and the derived entries are `RDCP = RD/RCPD` and
`RLDCP = 1/(RALSDCP - RALVDCP)`, fixed once in the constructed engine. -/
theorem externals_literals_win_and_derived (p1 : YoecldpParams)
    (p2 : YoethfParams) (p3 : YomcstParams) (p4 : YrecldpParams) (nlev : ℤ)
    (k : String) (v : ExtVal)
    (h : (literalConstants p1 p2 p3 p4 nlev).lookup k = some v) :
    (mkCloudscEngine p1 p2 p3 p4 nlev).externals k = some v ∧
      (mkCloudscEngine p1 p2 p3 p4 nlev).externals "RDCP"
        = some (.vReal (p3.RD / p3.RCPD)) ∧
      (mkCloudscEngine p1 p2 p3 p4 nlev).externals "RLDCP"
        = some (.vReal (1 / (p2.RALSDCP - p2.RALVDCP))) := by
  refine ⟨?_, ?_, ?_⟩
  · simp [mkCloudscEngine, buildExternals, updateExt, ofListExt, h]
  · simp [mkCloudscEngine, buildExternals, updateExt, ofListExt,
      literalConstants, List.lookup]
  · simp [mkCloudscEngine, buildExternals, updateExt, ofListExt,
      literalConstants, List.lookup]

/-- C5 witness: with concrete parameter groups in which every group also
binds `"RDCP"` (to a bogus value), the literal entry still wins:
`RDCP = RD/RCPD = 287/1004` and `EPSEC = 1e-14`. -/
theorem externals_literals_win_and_derived_witness :
    (mkCloudscEngine
        { dict := [("RDCP", .vInt 7)], NCLDQI := 1, NCLDQR := 2, NCLDQS := 3 }
        { dict := [], RALSDCP := 5, RALVDCP := 3 }
        { dict := [("RDCP", .vInt 8)], RD := 287, RCPD := 1004 }
        { dict := [], RVICE := 0, RVRAIN := 0, RVSNOW := 0 } 137).externals
      "EPSEC" = some (.vReal (1 / 10 ^ 14)) ∧
    (mkCloudscEngine
        { dict := [("RDCP", .vInt 7)], NCLDQI := 1, NCLDQR := 2, NCLDQS := 3 }
        { dict := [], RALSDCP := 5, RALVDCP := 3 }
        { dict := [("RDCP", .vInt 8)], RD := 287, RCPD := 1004 }
        { dict := [], RVICE := 0, RVRAIN := 0, RVSNOW := 0 } 137).externals
      "RDCP" = some (.vReal ((287 : ℝ) / 1004)) := by
  have h := externals_literals_win_and_derived
    { dict := [("RDCP", .vInt 7)], NCLDQI := 1, NCLDQR := 2, NCLDQS := 3 }
    { dict := [], RALSDCP := 5, RALVDCP := 3 }
    { dict := [("RDCP", .vInt 8)], RD := 287, RCPD := 1004 }
    { dict := [], RVICE := 0, RVRAIN := 0, RVSNOW := 0 } 137
    "EPSEC" (.vReal (1 / 10 ^ 14)) (by simp [literalConstants, List.lookup])
  exact ⟨h.1, h.2.1⟩

/-! ## Array initialization (initialization/utils.py) -/

/-- NumPy slice assignment `dst[start : start + len, 0:1] = src` on the
column index: positions `start ≤ i < start + len` take `src (i - start)`,
everything else keeps `dst`. -/
def writeSlice (dst : ℕ → ℝ) (start len : ℕ) (src : ℕ → ℝ) : ℕ → ℝ :=
  fun i => if start ≤ i ∧ i < start + len then src (i - start) else dst i

/-- The `for b in range(nb)` loop of `initialize_storage_2d`: full blocks
`0, ..., b-1` written in loop order. -/
def blocks2d (mi : ℕ) (buffer storage : ℕ → ℝ) : ℕ → (ℕ → ℝ)
  | 0 => storage
  | b + 1 => writeSlice (blocks2d mi buffer storage b) (b * mi) mi buffer

/-- `initialize_storage_2d` (utils.py line 29): with `ni = storage.shape[0]`,
`mi = buffer.size`, `nb = ni // mi`, copy the whole buffer into each full
block and a prefix of the buffer into the trailing partial block. -/
def initialize_storage_2d (ni mi : ℕ) (storage buffer : ℕ → ℝ) : ℕ → ℝ :=
  let nb := ni / mi
  writeSlice (blocks2d mi buffer storage nb) (nb * mi) (ni - nb * mi) buffer

/-- Slice assignment `dst[start : start + len, 0:1, :lk] = src[:, :lk]` for
the 3-d initializer: only vertical levels `k < lk` are written. -/
def writeSlice3 (dst : ℕ → ℕ → ℝ) (start len lk : ℕ) (src : ℕ → ℕ → ℝ) :
    ℕ → ℕ → ℝ :=
  fun i k =>
    if (start ≤ i ∧ i < start + len) ∧ k < lk then src (i - start) k else dst i k

/-- The `for b in range(nb)` loop of `initialize_storage_3d`. -/
def blocks3d (mi lk : ℕ) (buffer storage : ℕ → ℕ → ℝ) : ℕ → (ℕ → ℕ → ℝ)
  | 0 => storage
  | b + 1 => writeSlice3 (blocks3d mi lk buffer storage b) (b * mi) mi lk buffer

/-- `initialize_storage_3d` (utils.py line 38): with `(ni, _, nk)` the storage
shape, `(mi, mk)` the buffer shape and `lk = min(nk, mk)`, copy the buffer
periodically along the column axis, writing only the first `lk` levels. -/
def initialize_storage_3d (ni nk mi mk : ℕ) (storage buffer : ℕ → ℕ → ℝ) :
    ℕ → ℕ → ℝ :=
  let lk := min nk mk
  let nb := ni / mi
  writeSlice3 (blocks3d mi lk buffer storage nb) (nb * mi) (ni - nb * mi) lk buffer

/-- Inside block `b` of width `mi`, the offset from the block start is the
remainder modulo `mi`. -/
theorem mod_eq_sub_block {mi b i : ℕ} (h1 : b * mi ≤ i) (h2 : i < b * mi + mi) :
    i % mi = i - b * mi := by
  conv_lhs => rw [show i = (i - b * mi) + b * mi by omega]
  rw [Nat.add_mul_mod_self_right]
  exact Nat.mod_eq_of_lt (by omega)

theorem blocks2d_apply (mi : ℕ) (buffer storage : ℕ → ℝ) (b i : ℕ) :
    blocks2d mi buffer storage b i
      = if i < b * mi then buffer (i % mi) else storage i := by
  induction b with
  | zero => simp [blocks2d]
  | succ b ih =>
    simp only [blocks2d, writeSlice, ih, Nat.succ_mul]
    by_cases hin : b * mi ≤ i ∧ i < b * mi + mi
    · rw [if_pos hin, if_pos (by omega : i < b * mi + mi)]
      exact congrArg buffer (mod_eq_sub_block hin.1 hin.2).symm
    · rw [if_neg hin]
      by_cases hlt : i < b * mi
      · rw [if_pos hlt, if_pos (by omega : i < b * mi + mi)]
      · rw [if_neg hlt, if_neg (by omega : ¬i < b * mi + mi)]

theorem blocks3d_apply (mi lk : ℕ) (buffer storage : ℕ → ℕ → ℝ) (b i k : ℕ) :
    blocks3d mi lk buffer storage b i k
      = if i < b * mi ∧ k < lk then buffer (i % mi) k else storage i k := by
  induction b with
  | zero => simp [blocks3d]
  | succ b ih =>
    simp only [blocks3d, writeSlice3, ih, Nat.succ_mul]
    by_cases hin : (b * mi ≤ i ∧ i < b * mi + mi) ∧ k < lk
    · rw [if_pos hin, if_pos (show i < b * mi + mi ∧ k < lk by omega),
        mod_eq_sub_block hin.1.1 hin.1.2]
    · rw [if_neg hin]
      by_cases h2 : i < b * mi ∧ k < lk
      · rw [if_pos h2, if_pos (show i < b * mi + mi ∧ k < lk by omega)]
      · rw [if_neg h2, if_neg (show ¬(i < b * mi + mi ∧ k < lk) by omega)]

/-- C10: when the storage has more columns than the buffer, both initializers
replicate the buffer periodically along the column axis — every storage column
`i < ni` receives buffer column `i % mi` (full blocks first, then a prefix of
the buffer in the final partial block) — and the 3-d initializer writes only
the first `min nk mk` vertical levels, leaving the further levels of every
column unmodified. -/
theorem storage_init_periodic (ni nk mi mk : ℕ) (st2 bf2 : ℕ → ℝ)
    (st3 bf3 : ℕ → ℕ → ℝ) (hmi : 0 < mi) :
    (∀ i, i < ni → initialize_storage_2d ni mi st2 bf2 i = bf2 (i % mi)) ∧
      (∀ i, i < ni → ∀ k,
        (k < min nk mk →
          initialize_storage_3d ni nk mi mk st3 bf3 i k = bf3 (i % mi) k) ∧
        (min nk mk ≤ k →
          initialize_storage_3d ni nk mi mk st3 bf3 i k = st3 i k)) := by
  have hmod : ni / mi * mi + ni % mi = ni := by
    rw [Nat.mul_comm (ni / mi) mi]
    exact Nat.div_add_mod ni mi
  have hrem : ni % mi < mi := Nat.mod_lt ni hmi
  constructor
  · intro i hi
    unfold initialize_storage_2d writeSlice
    rw [blocks2d_apply]
    by_cases hin : ni / mi * mi ≤ i ∧ i < ni / mi * mi + (ni - ni / mi * mi)
    · rw [if_pos hin]
      exact congrArg bf2 (mod_eq_sub_block hin.1 (by omega)).symm
    · rw [if_neg hin, if_pos (by omega : i < ni / mi * mi)]
  · intro i hi k
    constructor
    · intro hk
      unfold initialize_storage_3d writeSlice3
      rw [blocks3d_apply]
      by_cases hin : (ni / mi * mi ≤ i ∧ i < ni / mi * mi + (ni - ni / mi * mi))
          ∧ k < min nk mk
      · rw [if_pos hin, mod_eq_sub_block hin.1.1 (by omega)]
      · rw [if_neg hin, if_pos (show i < ni / mi * mi ∧ k < min nk mk by
          constructor
          · omega
          · exact hk)]
    · intro hk
      unfold initialize_storage_3d writeSlice3
      rw [blocks3d_apply]
      rw [if_neg (show ¬((ni / mi * mi ≤ i ∧
          i < ni / mi * mi + (ni - ni / mi * mi)) ∧ k < min nk mk) by omega),
        if_neg (show ¬(i < ni / mi * mi ∧ k < min nk mk) by omega)]

/-- C10 witness: `ni = 5, mi = 2`: column 4 takes buffer column `4 % 2 = 0`;
`ni = 5, nk = 3, mi = 2, mk = 2`: entry `(3, 1)` takes buffer `(1, 1)`, and
level `k = 2 = min nk mk` is left at the pre-existing storage value. -/
theorem storage_init_periodic_witness :
    initialize_storage_2d 5 2 (fun _ => 0) (fun i => (i : ℝ)) 4 = 0 ∧
      initialize_storage_3d 5 3 2 2 (fun _ _ => 7) (fun i k => (i : ℝ) + k) 3 1
        = 2 ∧
      initialize_storage_3d 5 3 2 2 (fun _ _ => 7) (fun i k => (i : ℝ) + k) 3 2
        = 7 := by
  have h := storage_init_periodic 5 3 2 2 (fun _ => 0) (fun i => (i : ℝ))
    (fun _ _ => 7) (fun i k => (i : ℝ) + k) (by norm_num)
  refine ⟨?_, ?_, ?_⟩
  · have := h.1 4 (by norm_num)
    simpa using this
  · have := (h.2 3 (by norm_num) 1).1 (by norm_num)
    norm_num at this
    exact this
  · have := (h.2 3 (by norm_num) 2).2 (by norm_num)
    simpa using this

/-- A `DataArray` as seen by `initialize_field`: a rank tag `ndim`, the
storage shape, and the storage payload.  The 2-d payload is used when
`ndim = 2` and the 3-d payload when `ndim = 3`; a field of any other rank
carries both payloads unused. -/
structure DataField where
  ndim : ℕ
  ni : ℕ
  nk : ℕ
  data2 : ℕ → ℝ
  data3 : ℕ → ℕ → ℝ

/-- The `ValueError` message raised by `initialize_field` (utils.py line 54). -/
def rankErrorMsg : String := "The field to initialize must be either 2-d or 3-d."

/-- `initialize_field` (utils.py line 48): dispatch on the field's rank.  The
buffer is the rank-matched source array; the 2-d branch reads it as a flat
vector of `mi` values. -/
def initialize_field (f : DataField) (mi mk : ℕ) (buffer : ℕ → ℕ → ℝ) :
    Except String DataField :=
  if f.ndim = 2 then
    .ok { f with data2 := initialize_storage_2d f.ni mi f.data2 (fun i => buffer i 0) }
  else if f.ndim = 3 then
    .ok { f with data3 := initialize_storage_3d f.ni f.nk mi mk f.data3 buffer }
  else
    .error rankErrorMsg

/-- C9: `initialize_field` succeeds exactly when the field's rank is 2 or 3;
rank 2 dispatches to the 2-d initializer, rank 3 to the 3-d initializer, and
any other rank yields the `ValueError` without touching either payload. -/
theorem initialize_field_rank_dispatch (f : DataField) (mi mk : ℕ)
    (buffer : ℕ → ℕ → ℝ) :
    ((∃ g, initialize_field f mi mk buffer = .ok g) ↔ f.ndim = 2 ∨ f.ndim = 3) ∧
      (f.ndim = 2 → initialize_field f mi mk buffer
        = .ok { f with
            data2 := initialize_storage_2d f.ni mi f.data2 (fun i => buffer i 0) }) ∧
      (f.ndim = 3 → initialize_field f mi mk buffer
        = .ok { f with
            data3 := initialize_storage_3d f.ni f.nk mi mk f.data3 buffer }) ∧
      (f.ndim ≠ 2 → f.ndim ≠ 3 →
        initialize_field f mi mk buffer = .error rankErrorMsg) := by
  unfold initialize_field
  by_cases h2 : f.ndim = 2
  · simp [h2]
  · by_cases h3 : f.ndim = 3 <;> simp [h2, h3]

/-- C9 witness: a rank-4 field fails with the `ValueError` and a rank-2 field
succeeds. -/
theorem initialize_field_rank_dispatch_witness :
    initialize_field ⟨4, 1, 1, fun _ => 0, fun _ _ => 0⟩ 1 1 (fun _ _ => 0)
        = .error rankErrorMsg ∧
      (∃ g, initialize_field ⟨2, 1, 1, fun _ => 0, fun _ _ => 0⟩ 1 1
        (fun _ _ => 0) = .ok g) := by
  constructor
  · exact (initialize_field_rank_dispatch ⟨4, 1, 1, fun _ => 0, fun _ _ => 0⟩
      1 1 (fun _ _ => 0)).2.2.2 (by norm_num) (by norm_num)
  · exact (initialize_field_rank_dispatch ⟨2, 1, 1, fun _ => 0, fun _ _ => 0⟩
      1 1 (fun _ _ => 0)).1.mpr (Or.inl rfl)

/-! ## Field bundles and the split-variant wiring (cloudsc_split.py) -/

/-- The caller-visible buffer a stencil argument is bound to: a StateBundle
field, a TendencyBundle field, a DiagnosticBundle field, or an internally
allocated temporary. -/
inductive Buf where
  | state (name : String)
  | tend (name : String)
  | diag (name : String)
  | temp (name : String)
deriving DecidableEq

/-- The characters after the first underscore: `name.split("_", maxsplit=1)[1]`
for names that contain an underscore. -/
def afterUnderscore : List Char → List Char
  | [] => []
  | c :: cs => if c = '_' then cs else afterUnderscore cs

/-- Strip the grid-placement tag from a bundle field name
(`name.split("_", maxsplit=1)[1]`). -/
def dropTag (s : String) : String := ⟨afterUnderscore s.data⟩

/-- Keys of `CloudscSplit.input_grid_properties` (cloudsc_split.py 106-144),
in declaration order. -/
def inputPropertyNames : List String :=
  [ "b_convection_on", "f_a", "f_ap", "f_aph", "f_ccn", "f_hrlw", "f_hrsw",
    "f_icrit_aer", "f_lcrit_aer", "f_lsm", "f_lu", "f_lude", "f_mfd", "f_mfu",
    "f_nice", "f_qi", "f_ql", "f_qr", "f_qs", "f_qv", "f_re_ice", "f_snde",
    "f_supsat", "f_t", "f_tnd_tmp_a", "f_tnd_tmp_qi", "f_tnd_tmp_ql",
    "f_tnd_tmp_qr", "f_tnd_tmp_qs", "f_tnd_tmp_qv", "f_tnd_tmp_t", "f_vfi",
    "f_vfl", "f_w", "i_convection_type" ]

/-- Keys of `tendency_grid_properties` (cloudsc_split.py 147-157). -/
def tendencyPropertyNames : List String :=
  ["f_a", "f_t", "f_qv", "f_ql", "f_qi", "f_qr", "f_qs"]

/-- Keys of `diagnostic_grid_properties` (cloudsc_split.py 160-179). -/
def diagnosticPropertyNames : List String :=
  [ "f_covptot", "f_fcqlng", "f_fcqnng", "f_fcqrng", "f_fcqsng", "f_fhpsl",
    "f_fhpsn", "f_fplsl", "f_fplsn", "f_fsqif", "f_fsqitur", "f_fsqlf",
    "f_fsqltur", "f_fsqrf", "f_fsqsf", "f_rainfrac_toprfz" ]

/-- The 18 stage-1→stage-2 intermediate temporaries, in the order they are
drawn from `managed_temporary_storage` (cloudsc_split.py 205-222). -/
def intermediateNames : List String :=
  [ "foealfa", "lneg_qi", "lneg_ql", "lneg_qr", "lneg_qs", "lude", "pfplsi",
    "pfplsl", "pfplsr", "pfplss", "qi0", "qin", "ql0", "qln", "qr0", "qrn",
    "qs0", "qsn" ]

/-- `inputs`: each `f_x` state field bound to stencil argument `in_x`
(cloudsc_split.py 224-227). -/
def splitInputs : List (String × Buf) :=
  inputPropertyNames.map (fun n => ("in_" ++ dropTag n, Buf.state n))

/-- `tendencies`: each tendency field bound to `out_tnd_loc_x`
(cloudsc_split.py 228-231). -/
def splitTendencies : List (String × Buf) :=
  tendencyPropertyNames.map (fun n => ("out_tnd_loc_" ++ dropTag n, Buf.tend n))

/-- `diagnostics`: each diagnostic field bound to `out_x`
(cloudsc_split.py 232-235). -/
def splitDiagnostics : List (String × Buf) :=
  diagnosticPropertyNames.map (fun n => ("out_" ++ dropTag n, Buf.diag n))

/-- `inputs1 = inputs.copy()` followed by popping `in_vfi` and `in_vfl`
(cloudsc_split.py 249-251). -/
def splitInputs1 : List (String × Buf) :=
  splitInputs.filter (fun p => p.1 != "in_vfi" && p.1 != "in_vfl")

/-- `diagnostics1` (cloudsc_split.py 252-273): the outputs handed to the
`cloudsc_tendencies` stencil — two DiagnosticBundle buffers plus the 18
intermediate temporaries. -/
def splitDiagnostics1 : List (String × Buf) :=
  [ ("out_covptot", Buf.diag "f_covptot"),
    ("out_foealfa", Buf.temp "foealfa"),
    ("out_lneg_qi", Buf.temp "lneg_qi"),
    ("out_lneg_ql", Buf.temp "lneg_ql"),
    ("out_lneg_qr", Buf.temp "lneg_qr"),
    ("out_lneg_qs", Buf.temp "lneg_qs"),
    ("out_lude", Buf.temp "lude"),
    ("out_pfplsi", Buf.temp "pfplsi"),
    ("out_pfplsl", Buf.temp "pfplsl"),
    ("out_pfplsr", Buf.temp "pfplsr"),
    ("out_pfplss", Buf.temp "pfplss"),
    ("out_qi0", Buf.temp "qi0"),
    ("out_qin", Buf.temp "qin"),
    ("out_ql0", Buf.temp "ql0"),
    ("out_qln", Buf.temp "qln"),
    ("out_qr0", Buf.temp "qr0"),
    ("out_qrn", Buf.temp "qrn"),
    ("out_qs0", Buf.temp "qs0"),
    ("out_qsn", Buf.temp "qsn"),
    ("out_rainfrac_toprfz", Buf.diag "f_rainfrac_toprfz") ]

/-- `inputs2` (cloudsc_split.py 286-308): the inputs handed to the
`cloudsc_fluxes` stencil — the full `aph` field, the 18 intermediates, and
the two state fields withheld from stage 1. -/
def splitInputs2 : List (String × Buf) :=
  [ ("in_aph", Buf.state "f_aph"),
    ("in_foealfa", Buf.temp "foealfa"),
    ("in_lneg_qi", Buf.temp "lneg_qi"),
    ("in_lneg_ql", Buf.temp "lneg_ql"),
    ("in_lneg_qr", Buf.temp "lneg_qr"),
    ("in_lneg_qs", Buf.temp "lneg_qs"),
    ("in_lude", Buf.temp "lude"),
    ("in_pfplsi", Buf.temp "pfplsi"),
    ("in_pfplsl", Buf.temp "pfplsl"),
    ("in_pfplsr", Buf.temp "pfplsr"),
    ("in_pfplss", Buf.temp "pfplss"),
    ("in_qi0", Buf.temp "qi0"),
    ("in_qin", Buf.temp "qin"),
    ("in_ql0", Buf.temp "ql0"),
    ("in_qln", Buf.temp "qln"),
    ("in_qr0", Buf.temp "qr0"),
    ("in_qrn", Buf.temp "qrn"),
    ("in_qs0", Buf.temp "qs0"),
    ("in_qsn", Buf.temp "qsn"),
    ("in_vfi", Buf.state "f_vfi"),
    ("in_vfl", Buf.state "f_vfl") ]

/-- `outputs2 = diagnostics.copy()` followed by popping `out_covptot` and
`out_rainfrac_toprfz` (cloudsc_split.py 309-311). -/
def splitOutputs2 : List (String × Buf) :=
  splitDiagnostics.filter
    (fun p => p.1 != "out_covptot" && p.1 != "out_rainfrac_toprfz")

/-- Project the DiagnosticBundle fields out of a binding list. -/
def diagBindings (l : List (String × Buf)) : List String :=
  l.filterMap (fun p => match p.2 with | Buf.diag n => some n | _ => none)

/-- Project the temporary (intermediate) fields out of a binding list. -/
def tempBindings (l : List (String × Buf)) : List String :=
  l.filterMap (fun p => match p.2 with | Buf.temp n => some n | _ => none)

/-- Project the StateBundle fields out of a binding list. -/
def stateBindings (l : List (String × Buf)) : List String :=
  l.filterMap (fun p => match p.2 with | Buf.state n => some n | _ => none)

/-- C2: in the split variant, stage 1 (`cloudsc_tendencies`) is wired to all
7 tendency buffers, to exactly the `covptot` and `rainfrac_toprfz` fields of
the 16-field DiagnosticBundle, and to the 18 intermediate temporaries; stage 2
(`cloudsc_fluxes`) consumes exactly those 18 intermediates plus the full
`aph` field and the `vfi`/`vfl` inputs withheld from stage 1, and is wired to
exactly the remaining 14 diagnostic fields. -/
theorem split_stage_wiring :
    splitTendencies.map Prod.snd = tendencyPropertyNames.map Buf.tend ∧
      tendencyPropertyNames.length = 7 ∧
      diagnosticPropertyNames.length = 16 ∧
      diagBindings splitDiagnostics1 = ["f_covptot", "f_rainfrac_toprfz"] ∧
      tempBindings splitDiagnostics1 = intermediateNames ∧
      intermediateNames.length = 18 ∧
      tempBindings splitInputs2 = intermediateNames ∧
      stateBindings splitInputs2 = ["f_aph", "f_vfi", "f_vfl"] ∧
      (splitInputs.map Prod.fst).filter
          (fun k => !(splitInputs1.map Prod.fst).contains k)
        = ["in_vfi", "in_vfl"] ∧
      diagBindings splitOutputs2
        = diagnosticPropertyNames.filter
            (fun n => n != "f_covptot" && n != "f_rainfrac_toprfz") ∧
      (diagBindings splitOutputs2).length = 14 :=
  ⟨rfl, rfl, rfl, rfl, rfl, rfl, rfl, rfl, rfl, rfl, rfl⟩

/-! ## Fused vs split engine equivalence

The stencil kernels `cloudsc`, `cloudsc_tendencies` and `cloudsc_fluxes` are
compiled from stencil-definition modules that are not part of this tree; the
classes here only wire and invoke them.  Following the specification (§4.4:
"both must be derivable from the same underlying per-process physics; the
split variant is a refactoring ... not a different algorithm"), the per-level
physics is modelled as abstract step functions shared by both engines, and
the two engines differ exactly as the two orchestrations differ: one sweep
computing everything per level, versus a tendency sweep followed by a flux
sweep over the recorded intermediates. -/

/-- The 7 TendencyBundle fields produced per level. -/
structure TendOut where
  a : ℝ
  t : ℝ
  qv : ℝ
  ql : ℝ
  qi : ℝ
  qr : ℝ
  qs : ℝ

/-- The 2 DiagnosticBundle fields written by the tendency stage. -/
structure Stage1Diags where
  covptot : ℝ
  rainfrac_toprfz : ℝ

/-- The 18 stage-1→stage-2 intermediate fields, per level. -/
structure Intermediates where
  foealfa : ℝ
  lneg_qi : ℝ
  lneg_ql : ℝ
  lneg_qr : ℝ
  lneg_qs : ℝ
  lude : ℝ
  pfplsi : ℝ
  pfplsl : ℝ
  pfplsr : ℝ
  pfplss : ℝ
  qi0 : ℝ
  qin : ℝ
  ql0 : ℝ
  qln : ℝ
  qr0 : ℝ
  qrn : ℝ
  qs0 : ℝ
  qsn : ℝ

/-- The remaining 14 DiagnosticBundle fields, written by the flux stage. -/
structure FluxDiags where
  fcqlng : ℝ
  fcqnng : ℝ
  fcqrng : ℝ
  fcqsng : ℝ
  fhpsl : ℝ
  fhpsn : ℝ
  fplsl : ℝ
  fplsn : ℝ
  fsqif : ℝ
  fsqitur : ℝ
  fsqlf : ℝ
  fsqltur : ℝ
  fsqrf : ℝ
  fsqsf : ℝ

/-- The full 16-field DiagnosticBundle, per level. -/
structure DiagnosticOut where
  covptot : ℝ
  fcqlng : ℝ
  fcqnng : ℝ
  fcqrng : ℝ
  fcqsng : ℝ
  fhpsl : ℝ
  fhpsn : ℝ
  fplsl : ℝ
  fplsn : ℝ
  fsqif : ℝ
  fsqitur : ℝ
  fsqlf : ℝ
  fsqltur : ℝ
  fsqrf : ℝ
  fsqsf : ℝ
  rainfrac_toprfz : ℝ

/-- Assemble the DiagnosticBundle from the tendency-stage diagnostics and the
flux-stage diagnostics. -/
def mkDiagnostics (d : Stage1Diags) (x : FluxDiags) : DiagnosticOut :=
  { covptot := d.covptot, fcqlng := x.fcqlng, fcqnng := x.fcqnng,
    fcqrng := x.fcqrng, fcqsng := x.fcqsng, fhpsl := x.fhpsl,
    fhpsn := x.fhpsn, fplsl := x.fplsl, fplsn := x.fplsn, fsqif := x.fsqif,
    fsqitur := x.fsqitur, fsqlf := x.fsqlf, fsqltur := x.fsqltur,
    fsqrf := x.fsqrf, fsqsf := x.fsqsf,
    rainfrac_toprfz := d.rainfrac_toprfz }

/-- One vertical level of input state: the physics fields `phys` visible to
the tendency stage, plus the `vfi`/`vfl` fields it never receives and the
`aph` field both stages receive. -/
structure LevelInput (ι : Type) where
  phys : ι
  vfi : ℝ
  vfl : ℝ
  aph : ℝ

/-- Modelled from the spec: the per-level output of the underlying tendency
physics (the `cloudsc_tendencies` kernel body, not in this tree). -/
def TendStepOut : Type := TendOut × Stage1Diags × Intermediates

/-- The strict top-to-bottom tendency sweep (§4.4): the carry `s` is the
accumulated per-column recurrence state (precipitation, overlap, rain
liquid), threaded from each level to the one below. -/
def tendencySweep {σ ι : Type} (stepT : σ → ι → ℝ → σ × TendStepOut) :
    σ → List (LevelInput ι) → List TendStepOut
  | _, [] => []
  | s, x :: xs =>
    (stepT s x.phys x.aph).2 :: tendencySweep stepT (stepT s x.phys x.aph).1 xs

/-- The strict top-to-bottom flux sweep over the recorded intermediates plus
the untouched `vfi`/`vfl` inputs and the `aph` field. -/
def fluxSweep {φ : Type} (stepF : φ → Intermediates → ℝ × ℝ × ℝ → φ × FluxDiags) :
    φ → List (Intermediates × ℝ × ℝ × ℝ) → List FluxDiags
  | _, [] => []
  | f, y :: ys =>
    (stepF f y.1 y.2).2 :: fluxSweep stepF (stepF f y.1 y.2).1 ys

/-- Modelled from the spec: the split engine (`CloudscSplit.array_call`) —
run the tendency sweep into the intermediates, then feed them (with
`vfi`/`vfl`/`aph`) to the flux sweep, and assemble the 16 diagnostics from
the two stages' outputs. -/
def splitEngine {σ φ ι : Type} (stepT : σ → ι → ℝ → σ × TendStepOut)
    (stepF : φ → Intermediates → ℝ × ℝ × ℝ → φ × FluxDiags)
    (s0 : σ) (f0 : φ) (xs : List (LevelInput ι)) :
    List TendOut × List DiagnosticOut :=
  let outs1 := tendencySweep stepT s0 xs
  let outs2 := fluxSweep stepF f0
    (List.zipWith (fun o x => (o.2.2, x.vfi, x.vfl, x.aph)) outs1 xs)
  (outs1.map Prod.fst, List.zipWith (fun o d => mkDiagnostics o.2.1 d) outs1 outs2)

/-- Modelled from the spec: the fused engine (`Cloudsc.array_call`) — one
sweep computing, at each level, the tendency physics and immediately the flux
physics on its intermediates. -/
def fusedEngine {σ φ ι : Type} (stepT : σ → ι → ℝ → σ × TendStepOut)
    (stepF : φ → Intermediates → ℝ × ℝ × ℝ → φ × FluxDiags) :
    σ → φ → List (LevelInput ι) → List TendOut × List DiagnosticOut
  | _, _, [] => ([], [])
  | s, f, x :: xs =>
    let r := stepT s x.phys x.aph
    let q := stepF f r.2.2.2 (x.vfi, x.vfl, x.aph)
    let rest := fusedEngine stepT stepF r.1 q.1 xs
    (r.2.1 :: rest.1, mkDiagnostics r.2.2.1 q.2 :: rest.2)

/-- C1: for every grid column (any list of level inputs), any shared
per-process physics, and any initial recurrence state, the fused engine and
the split engine produce identical tendency-field lists and identical
16-field diagnostic lists — exact equality, hence agreement within any
floating tolerance. -/
theorem fused_engine_eq_split_engine {σ φ ι : Type}
    (stepT : σ → ι → ℝ → σ × TendStepOut)
    (stepF : φ → Intermediates → ℝ × ℝ × ℝ → φ × FluxDiags)
    (s0 : σ) (f0 : φ) (xs : List (LevelInput ι)) :
    fusedEngine stepT stepF s0 f0 xs = splitEngine stepT stepF s0 f0 xs := by
  induction xs generalizing s0 f0 with
  | nil => rfl
  | cons x xs ih =>
    simp only [fusedEngine]
    rw [ih]
    simp only [splitEngine, tendencySweep, fluxSweep, List.zipWith, List.map]

/-! ## Frame property of `array_call` (cloudsc.py 175-224, cloudsc_split.py
181-321)

The wiring-level half is checkable from this tree: every stencil argument
bound to a StateBundle buffer is an `in_*` argument, and every `out_*` /
`tmp_*` argument is bound to a tendency, diagnostic, or temporary buffer.
The kernel-level half (a GT4Py stencil writes only the buffers it receives
as outputs) is modelled from the spec (§4.5: "mutates only the provided
output buffers and internally-owned temporaries; never mutates the input
StateBundle"), with kernels as pure functions of the read-only state. -/

/-- The 8 temporaries allocated by both variants
(cloudsc.py 202-211 / cloudsc_split.py 236-245). -/
def temporaryBindings : List (String × Buf) :=
  [ ("tmp_aph_s", Buf.temp "aph_s"),
    ("tmp_cldtopdist", Buf.temp "cldtopdist"),
    ("tmp_covpmax", Buf.temp "covpmax"),
    ("tmp_covptot", Buf.temp "covptot"),
    ("tmp_klevel", Buf.temp "klevel"),
    ("tmp_paphd", Buf.temp "paphd"),
    ("tmp_rainliq", Buf.temp "rainliq"),
    ("tmp_trpaus", Buf.temp "trpaus") ]

/-- The full argument binding of the fused `cloudsc` stencil call
(cloudsc.py 213-223); `Cloudsc` declares the same property dicts as
`CloudscSplit`. -/
def fusedCallBindings : List (String × Buf) :=
  splitInputs ++ splitTendencies ++ splitDiagnostics ++ temporaryBindings

/-- The full argument binding of the `cloudsc_tendencies` call
(cloudsc_split.py 274-284). -/
def stage1CallBindings : List (String × Buf) :=
  splitInputs1 ++ splitTendencies ++ splitDiagnostics1 ++ temporaryBindings

/-- The full argument binding of the `cloudsc_fluxes` call
(cloudsc_split.py 312-320). -/
def stage2CallBindings : List (String × Buf) :=
  splitInputs2 ++ splitOutputs2

/-- `pre` is an initial segment of `s` (on the character lists). -/
def startsWithChars : List Char → List Char → Bool
  | [], _ => true
  | _ :: _, [] => false
  | c :: cs, d :: ds => c == d && startsWithChars cs ds

/-- The string `s` begins with the tag `pre`. -/
def strStarts (pre s : String) : Bool := startsWithChars pre.data s.data

/-- A binding respects the frame discipline when a StateBundle buffer is only
ever an `in_*` argument and an `out_*`/`tmp_*` argument is never a
StateBundle buffer. -/
def bindingRespectsFrame (p : String × Buf) : Bool :=
  (match p.2 with
    | Buf.state _ => strStarts "in_" p.1
    | _ => true)
  && (!(strStarts "out_" p.1 || strStarts "tmp_" p.1)
      || (match p.2 with | Buf.state _ => false | _ => true))

/-- The memory visible to one `array_call`: the input StateBundle, the two
caller-owned output bundles, and the internally allocated temporaries. -/
structure EngineMem (S T D P : Type) where
  state : S
  tends : T
  diags : D
  temps : P

/-- Modelled from the spec: `Cloudsc.array_call` — the compiled `cloudsc`
stencil (not in this tree) reads the state and fills the tendency,
diagnostic, and temporary buffers. -/
def arrayCallFused {S T D P : Type} (kernel : S → ℝ → T × D × P) (dt : ℝ)
    (m : EngineMem S T D P) : EngineMem S T D P :=
  let r := kernel m.state dt
  { state := m.state, tends := r.1, diags := r.2.1, temps := r.2.2 }

/-- Modelled from the spec: `CloudscSplit.array_call` — `initTemps` is the
explicit pre-kernel temporary initialization (`aph_s` from `f_aph`, `klevel`
from `arange`), stage 1 fills the tendencies, its 2 diagnostics and the
intermediates, and stage 2 fills the remaining diagnostics from the
state and the intermediates. -/
def arrayCallSplit {S T D P Q : Type} (initTemps : S → Q)
    (stage1 : S → Q → ℝ → T × D × P) (stage2 : S → P → ℝ → D) (dt : ℝ)
    (m : EngineMem S T D (P × Q)) : EngineMem S T D (P × Q) :=
  let q := initTemps m.state
  let r := stage1 m.state q dt
  let d2 := stage2 m.state r.2.2 dt
  { state := m.state, tends := r.1, diags := d2, temps := (r.2.2, q) }

/-- C8: in both variants, every stencil argument bound to a StateBundle
buffer is an input argument and no output or temporary argument aliases a
StateBundle buffer; consequently the call, modelled with pure kernels over
the read-only state, returns the tendency/diagnostic/temporary components
rewritten and the StateBundle component untouched. -/
theorem array_call_never_mutates_state :
    (fusedCallBindings ++ stage1CallBindings ++ stage2CallBindings).all
        bindingRespectsFrame = true ∧
      (∀ (S T D P : Type) (kernel : S → ℝ → T × D × P) (dt : ℝ)
        (m : EngineMem S T D P), (arrayCallFused kernel dt m).state = m.state) ∧
      (∀ (S T D P Q : Type) (initTemps : S → Q)
        (stage1 : S → Q → ℝ → T × D × P) (stage2 : S → P → ℝ → D) (dt : ℝ)
        (m : EngineMem S T D (P × Q)),
        (arrayCallSplit initTemps stage1 stage2 dt m).state = m.state) := by
  refine ⟨by decide, ?_, ?_⟩
  · intro S T D P kernel dt m
    rfl
  · intro S T D P Q initTemps stage1 stage2 dt m
    rfl
